import Mathlib

/-!
Verification of the repairshop repository: a shallow embedding of its
validation schemas (zod-schema/customer.ts, zod-schema/ticket.ts), the
ticket form default-value computation (TicketForm.tsx), the customer form
page routing (app/(rs)/customers/form/page.tsx) and the migration runner
(db/migrate.ts), together with theorems settling the frozen claims.
-/

/-- The structured result of running a derived insert validator: zod's
`safeParse` either succeeds with the parsed value or fails with a
field-keyed list of human-readable messages (react-hook-form's resolver
shows the first message per field). -/
inductive ValidationResult (α : Type) where
  | ok (value : α)
  | fieldErrors (errors : List (String × String))
deriving DecidableEq

/-- One field-level refinement check: when `pass` fails it contributes a
single field-keyed error entry with the given message. -/
def fieldCheck (name : String) (pass : Bool) (msg : String) : List (String × String) :=
  if pass then [] else [(name, msg)]

/-- Sequentially consume exactly `n` decimal digits (regex `\d{n}`) from the
front of the character list, returning the remainder on success. -/
def matchDigits : Nat → List Char → Option (List Char)
  | 0, l => some l
  | _ + 1, [] => none
  | n + 1, c :: rest => if c.isDigit then matchDigits n rest else none

/-- The zip-code regex of `insertCustomerSchema`:
matches a string against `\x5e\d\x7b5\x7d(-\d\x7b4\x7d)?$`,
i.e. five digits optionally followed by a hyphen and four digits. -/
def zipRegexMatch (s : String) : Bool :=
  match matchDigits 5 s.data with
  | none => false
  | some [] => true
  | some (c :: rest2) =>
    if c = '-' then
      match matchDigits 4 rest2 with
      | some [] => true
      | _ => false
    else false

/-- The phone regex of `insertCustomerSchema`:
matches a string against `\x5e\d\x7b3\x7d-\d\x7b3\x7d-\d\x7b4\x7d$`. -/
def phoneRegexMatch (s : String) : Bool :=
  match matchDigits 3 s.data with
  | some (c1 :: r1) =>
    if c1 = '-' then
      match matchDigits 3 r1 with
      | some (c2 :: r2) =>
        if c2 = '-' then
          match matchDigits 4 r2 with
          | some [] => true
          | _ => false
        else false
      | _ => false
    else false
  | _ => false

/-- Split a character list at its first `@`, returning the part before and
the part after; `none` when the list holds no `@`. -/
def splitAtFirstAt : List Char → Option (List Char × List Char)
  | [] => none
  | c :: rest =>
    if c = '@' then some ([], rest)
    else (splitAtFirstAt rest).map (fun p => (c :: p.1, p.2))

/-- Characters zod's email pattern allows inside the local part
(letters, digits, underscore, apostrophe, plus, hyphen, dot). -/
def isLocalChar (c : Char) : Bool :=
  c.isAlpha || c.isDigit || c = '_' || c = Char.ofNat 39 || c = '+' || c = '-' || c = '.'

/-- Characters zod's email pattern allows as the last local-part character
(the same set minus the apostrophe and the dot). -/
def isLocalLastChar (c : Char) : Bool :=
  c.isAlpha || c.isDigit || c = '_' || c = '+' || c = '-'

/-- No two consecutive dots anywhere in the list. -/
def noDoubleDot : List Char → Bool
  | [] => true
  | [_] => true
  | a :: b :: rest =>
    if a = '.' && b = '.' then false else noDoubleDot (b :: rest)

/-- Validity of the local part (before the `@`) under zod's email pattern:
nonempty, made of local characters, not starting with a dot, not containing
two consecutive dots, and ending in a non-dot local character. -/
def localOk (l : List Char) : Bool :=
  match l with
  | [] => false
  | c :: _ =>
    decide (c ≠ '.') && l.all isLocalChar && noDoubleDot l &&
    (match l.getLast? with
     | some d => isLocalLastChar d
     | none => false)

/-- Split a character list on dots into its labels. -/
def splitOnDot : List Char → List (List Char)
  | [] => [[]]
  | c :: rest =>
    if c = '.' then [] :: splitOnDot rest
    else
      match splitOnDot rest with
      | p :: ps => (c :: p) :: ps
      | [] => [[c]]

/-- A non-final domain label: nonempty, starting with a letter or digit,
continuing with letters, digits or hyphens. -/
def labelOk : List Char → Bool
  | [] => false
  | c :: rest => (c.isAlpha || c.isDigit) && rest.all (fun x => x.isAlpha || x.isDigit || x = '-')

/-- The final top-level-domain label: at least two letters. -/
def tldOk (l : List Char) : Bool :=
  decide (2 ≤ l.length) && l.all Char.isAlpha

/-- Validity of the domain part (after the `@`) under zod's email pattern:
at least two dot-separated labels, all but the last a valid label, the last
a valid top-level domain. -/
def domainOk (d : List Char) : Bool :=
  let parts := splitOnDot d
  decide (2 ≤ parts.length) && (parts.dropLast.all labelOk) && tldOk (parts.getLastD [])

/-- zod's `.email()` check as used by `insertCustomerSchema`: the string
splits at an `@` into a valid local part and a valid domain. -/
def zodEmailCheck (s : String) : Bool :=
  match splitAtFirstAt s.data with
  | none => false
  | some (l, d) => localOk l && domainOk d

/-- The insert-shape customer input accepted by `insertCustomerSchema`
(zod-schema/customer.ts over db/schema.ts's `customers` table): the serial
id, the default-valued active flag and the timestamps are optional; notes
and address2 are nullable. -/
structure CustomerInput where
  id : Option Int
  firstName : String
  lastName : String
  email : String
  phone : String
  address1 : String
  address2 : Option String
  city : String
  state : String
  zipCode : String
  notes : Option String
  active : Option Bool
  createdAt : Option Nat
  updatedAt : Option Nat
deriving DecidableEq

/-- The field-keyed error entries produced by `insertCustomerSchema`'s
refinements (zod-schema/customer.ts), in declaration order: min-length-1
checks for firstName, lastName, address1 and city; exact length 2 for
state; the email-format check; the zip and phone regexes; each with its
fixed message from the source. -/
def customerFieldErrors (i : CustomerInput) : List (String × String) :=
  fieldCheck "firstName" (decide (1 ≤ i.firstName.length)) "First name is required" ++
  fieldCheck "lastName" (decide (1 ≤ i.lastName.length)) "Last name is required" ++
  fieldCheck "address1" (decide (1 ≤ i.address1.length)) "Address is required" ++
  fieldCheck "city" (decide (1 ≤ i.city.length)) "City is required" ++
  fieldCheck "state" (decide (i.state.length = 2)) "State must be 2 characters" ++
  fieldCheck "email" (zodEmailCheck i.email) "Invalid email address" ++
  fieldCheck "zipCode" (zipRegexMatch i.zipCode)
    "Invalid zip code. Use 5 digits or 5 digits followed by a hyphen and 4 digits" ++
  fieldCheck "phone" (phoneRegexMatch i.phone)
    "Invalid phone number. Use format: 123-456-7890"

/-- Running `insertCustomerSchema` on a candidate input: a structured
success-or-failure result, never an exception. -/
def insertCustomerSchema (i : CustomerInput) : ValidationResult CustomerInput :=
  match customerFieldErrors i with
  | [] => .ok i
  | e :: rest => .fieldErrors (e :: rest)

/-- The ticket id value: `insertTicketSchema` overrides the id field with
`z.union([z.number(), z.literal("(New)")])`, so a candidate id is either a
number or a string. -/
inductive TicketId where
  | num (n : Int)
  | str (s : String)
deriving DecidableEq

/-- The id check of `insertTicketSchema`: any number passes, a string
passes exactly when it is the literal `"(New)"`. -/
def ticketIdCheck : TicketId → Bool
  | .num _ => true
  | .str s => s = "(New)"

/-- The insert-shape ticket input accepted by `insertTicketSchema`
(zod-schema/ticket.ts over the `tickets` table): completed has a column
default and is optional; id, customerId, title, description and tech are
required. -/
structure TicketInput where
  id : TicketId
  customerId : Int
  title : String
  description : String
  completed : Option Bool
  tech : String
deriving DecidableEq

/-- The field-keyed error entries produced by `insertTicketSchema`
(zod-schema/ticket.ts): the id union check with zod's default union
message, and min-length-1 checks for title, description and tech with
their fixed messages. -/
def ticketFieldErrors (i : TicketInput) : List (String × String) :=
  fieldCheck "id" (ticketIdCheck i.id) "Invalid input" ++
  fieldCheck "title" (decide (1 ≤ i.title.length)) "Title is required" ++
  fieldCheck "description" (decide (1 ≤ i.description.length)) "Description is required" ++
  fieldCheck "tech" (decide (1 ≤ i.tech.length)) "Tech is required"

/-- Running `insertTicketSchema` on a candidate input: a structured
success-or-failure result, never an exception. -/
def insertTicketSchema (i : TicketInput) : ValidationResult TicketInput :=
  match ticketFieldErrors i with
  | [] => .ok i
  | e :: rest => .fieldErrors (e :: rest)

/-- The select-shape customer record (db/schema.ts's `customers` table),
the `selectCustomerSchemaType` the ticket form and the customer form page
receive. -/
structure Customer where
  id : Int
  firstName : String
  lastName : String
  email : String
  phone : String
  address1 : String
  address2 : Option String
  city : String
  state : String
  zipCode : String
  notes : Option String
  active : Bool
  createdAt : Nat
  updatedAt : Nat
deriving DecidableEq

/-- The optional `ticket` prop of TicketForm.tsx with each field possibly
undefined, as the nullish-coalescing fallbacks in the component treat
them. -/
structure PartialTicket where
  id : Option TicketId
  customerId : Option Int
  title : Option String
  description : Option String
  completed : Option Bool
  tech : Option String
deriving DecidableEq

/-- The fully-determined default value set TicketForm.tsx computes. -/
structure TicketFormValues where
  id : TicketId
  customerId : Int
  title : String
  description : String
  completed : Bool
  tech : String
deriving DecidableEq

/-- The `defaultValues` computation of TicketForm.tsx: each field is the
ticket record's field when defined (nullish coalescing `??`), otherwise
the blank default — the `"(New)"` sentinel for id, the supplied customer's
id for customerId, empty strings for title and description, `false` for
completed, and the placeholder email for tech. -/
def ticketFormDefaultValues (customer : Customer) (ticket : Option PartialTicket) :
    TicketFormValues :=
  { id := (ticket.bind (fun t => t.id)).getD (.str "(New)")
    customerId := (ticket.bind (fun t => t.customerId)).getD customer.id
    title := (ticket.bind (fun t => t.title)).getD ""
    description := (ticket.bind (fun t => t.description)).getD ""
    completed := (ticket.bind (fun t => t.completed)).getD false
    tech := (ticket.bind (fun t => t.tech)).getD "new-ticket@example.com" }

/-- A JavaScript thrown value: either an `Error` instance (carrying its
message) or a non-`Error` value, which `instanceof Error` distinguishes in
the page's catch block. -/
inductive JsVal where
  | errObj (message : String)
  | other (value : String)
deriving DecidableEq

/-- What the customer form page renders: the not-found heading with its
back-button affordance, the edit form pre-populated with a customer, or
the new-customer form with no existing record. -/
inductive PageRender where
  | notFound (customerId : String) (backTitle : String)
  | editForm (customer : Customer)
  | newForm
deriving DecidableEq

/-- How the page invocation ends: a rendered value (`none` models the
implicit `undefined` return of the catch block's fall-through) or a
re-thrown exception. -/
inductive PageResult where
  | rendered (r : Option PageRender)
  | threw (v : JsVal)
deriving DecidableEq

/-- The observable outcome of one page render: its result together with
the exceptions forwarded to `Sentry.captureException`. -/
structure PageOutcome where
  result : PageResult
  captured : List JsVal
deriving DecidableEq

/-- JavaScript `parseInt` in base 10: skip leading whitespace, read an
optional sign and then leading decimal digits; `none` models `NaN`. -/
def jsParseInt (s : String) : Option Int :=
  let t := s.data.dropWhile (fun c => c = ' ' || c = '\t' || c = '\n' || c = '\r')
  let signed : Bool × List Char :=
    match t with
    | '-' :: r => (true, r)
    | '+' :: r => (false, r)
    | r => (false, r)
  let digits := signed.2.takeWhile Char.isDigit
  if digits.isEmpty then none
  else
    let n : Nat := digits.foldl (fun acc c => acc * 10 + (c.toNat - 48)) 0
    some (if signed.1 then -(n : Int) else (n : Int))

/-- CustomerFormPage (app/(rs)/customers/form/page.tsx): reads the
`customerId` navigation parameter; when truthy (present and nonempty) it
parses it with `parseInt` and fetches the customer, rendering the
not-found heading, the pre-populated form, or — on a thrown `Error` —
capturing to Sentry and re-throwing; a thrown non-`Error` value falls
through the `instanceof Error` guard and the page returns `undefined`.
When the parameter is absent or empty it renders the blank form. The
record-store fetch is the external collaborator, passed as a function. -/
def customerFormPage (params : List (String × String))
    (fetch : Option Int → Except JsVal (Option Customer)) : PageOutcome :=
  match params.lookup "customerId" with
  | some cid =>
    if cid = "" then
      { result := .rendered (some .newForm), captured := [] }
    else
      match fetch (jsParseInt cid) with
      | .error v =>
        match v with
        | .errObj m => { result := .threw (.errObj m), captured := [.errObj m] }
        | .other _ => { result := .rendered none, captured := [] }
      | .ok none => { result := .rendered (some (.notFound cid "Go Back")), captured := [] }
      | .ok (some c) => { result := .rendered (some (.editForm c)), captured := [] }
  | none => { result := .rendered (some .newForm), captured := [] }

/-- The outcome of applying the database migrations, the external
collaborator of db/migrate.ts. -/
inductive MigrationOutcome where
  | ok
  | error (e : String)
deriving DecidableEq

/-- The observable effects of the migration runner: the console lines it
wrote and the exit code it set (`none` when the process exit code is left
untouched). -/
structure MigrateResult where
  logs : List String
  exitCode : Option Nat
deriving DecidableEq

/-- The `main` routine of db/migrate.ts: on success log the success line and leave the
exit code alone; on error log the error line and exit with code 1. -/
def migrateMain : MigrationOutcome → MigrateResult
  | .ok => { logs := ["Migrations applied successfully."], exitCode := none }
  | .error e => { logs := ["Error applying migrations: " ++ e], exitCode := some 1 }


/-- A concrete customer record used to instantiate witnesses. -/
def sampleCustomer : Customer :=
  { id := 7, firstName := "Ann", lastName := "Lee", email := "ann@example.com"
    phone := "123-456-7890", address1 := "1 Main St", address2 := none
    city := "Town", state := "CA", zipCode := "12345", notes := none
    active := true, createdAt := 0, updatedAt := 0 }

/-- A concrete existing ticket record with `completed = true`, used to
instantiate witnesses. -/
def sampleTicket : PartialTicket :=
  { id := some (.num 3), customerId := some 7, title := some "Broken screen"
    description := some "It broke", completed := some true
    tech := some "tech@example.com" }

/-- C1: for every optional existing ticket record, each computed default
value of `ticketFormDefaultValues` equals the record's field value when
that value is defined — in particular a record with `completed = some
true` yields the default `true`, not the fallback `false` — and otherwise
equals the documented blank default: `""` for title and description,
`false` for completed, the `"(New)"` sentinel for the id, and the fixed
placeholder email for the tech field. -/
theorem claim_C1 (c : Customer) (ot : Option PartialTicket) :
    (∀ v, ot.bind (fun t => t.id) = some v → (ticketFormDefaultValues c ot).id = v) ∧
    (ot.bind (fun t => t.id) = none → (ticketFormDefaultValues c ot).id = .str "(New)") ∧
    (∀ v, ot.bind (fun t => t.title) = some v → (ticketFormDefaultValues c ot).title = v) ∧
    (ot.bind (fun t => t.title) = none → (ticketFormDefaultValues c ot).title = "") ∧
    (∀ v, ot.bind (fun t => t.description) = some v →
      (ticketFormDefaultValues c ot).description = v) ∧
    (ot.bind (fun t => t.description) = none →
      (ticketFormDefaultValues c ot).description = "") ∧
    (∀ v, ot.bind (fun t => t.completed) = some v →
      (ticketFormDefaultValues c ot).completed = v) ∧
    (ot.bind (fun t => t.completed) = none →
      (ticketFormDefaultValues c ot).completed = false) ∧
    (∀ t, ot = some t → t.completed = some true →
      (ticketFormDefaultValues c ot).completed = true) ∧
    (∀ v, ot.bind (fun t => t.tech) = some v → (ticketFormDefaultValues c ot).tech = v) ∧
    (ot.bind (fun t => t.tech) = none →
      (ticketFormDefaultValues c ot).tech = "new-ticket@example.com") := by
  cases ot with
  | none =>
    refine ⟨fun v h => ?_, fun h => ?_, fun v h => ?_, fun h => ?_, fun v h => ?_,
      fun h => ?_, fun v h => ?_, fun h => ?_, fun t ht hc => ?_, fun v h => ?_,
      fun h => ?_⟩ <;> simp_all [ticketFormDefaultValues]
  | some t =>
    refine ⟨fun v h => ?_, fun h => ?_, fun v h => ?_, fun h => ?_, fun v h => ?_,
      fun h => ?_, fun v h => ?_, fun h => ?_, fun t' ht hc => ?_, fun v h => ?_,
      fun h => ?_⟩ <;> simp_all [ticketFormDefaultValues]

/-- C1 witness: for the concrete ticket record with `completed = some
true`, the computed default for completed is `true`. -/
theorem claim_C1_witness :
    (ticketFormDefaultValues sampleCustomer (some sampleTicket)).completed = true :=
  (claim_C1 sampleCustomer (some sampleTicket)).2.2.2.2.2.2.1 true rfl

/-- C9: when the ticket form is opened with no existing ticket, or with a
ticket whose customerId is undefined, the computed default for customerId
is the supplied customer's id. -/
theorem claim_C9 (c : Customer) (ot : Option PartialTicket)
    (h : ot = none ∨ ∃ t, ot = some t ∧ t.customerId = none) :
    (ticketFormDefaultValues c ot).customerId = c.id := by
  rcases h with h | ⟨t, rfl, ht⟩
  · subst h; simp [ticketFormDefaultValues]
  · simp [ticketFormDefaultValues, ht]

/-- C9 witness: with no existing ticket the default customerId is the
concrete customer's id. -/
theorem claim_C9_witness :
    (ticketFormDefaultValues sampleCustomer none).customerId = sampleCustomer.id :=
  claim_C9 sampleCustomer none (Or.inl rfl)

/-- C10: if applying migrations raises an error, the runner logs the error
line and exits with code 1; on success it logs the success line and leaves
the exit code untouched. -/
theorem claim_C10 (o : MigrationOutcome) :
    (∀ e, o = .error e →
      (migrateMain o).exitCode = some 1 ∧
        ("Error applying migrations: " ++ e) ∈ (migrateMain o).logs) ∧
    (o = .ok →
      (migrateMain o).exitCode = none ∧
        "Migrations applied successfully." ∈ (migrateMain o).logs) := by
  constructor
  · intro e he; subst he; simp [migrateMain]
  · intro h; subst h; simp [migrateMain]

/-- C10 witness: a concrete failing migration exits with code 1 and logs
the error line; a concrete successful one logs success and leaves the exit
code alone. -/
theorem claim_C10_witness :
    ((migrateMain (.error "disk full")).exitCode = some 1 ∧
      ("Error applying migrations: " ++ "disk full") ∈ (migrateMain (.error "disk full")).logs) ∧
    ((migrateMain .ok).exitCode = none ∧
      "Migrations applied successfully." ∈ (migrateMain .ok).logs) :=
  ⟨(claim_C10 (.error "disk full")).1 "disk full" rfl, (claim_C10 .ok).2 rfl⟩

/-- C2 (amended): when the fetch raises an exception that is an `Error`
instance, the page forwards it to the error-reporting collaborator and
re-throws it; a thrown non-`Error` value, however, falls through the
`instanceof Error` guard of the catch block: nothing is captured and the
page returns `undefined` instead of re-throwing. -/
theorem claim_C2 (params : List (String × String))
    (fetch : Option Int → Except JsVal (Option Customer)) (cid : String)
    (hcid : params.lookup "customerId" = some cid) (hne : cid ≠ "") :
    (∀ m, fetch (jsParseInt cid) = .error (.errObj m) →
      customerFormPage params fetch =
        { result := .threw (.errObj m), captured := [.errObj m] }) ∧
    (∀ s, fetch (jsParseInt cid) = .error (.other s) →
      customerFormPage params fetch = { result := .rendered none, captured := [] }) := by
  constructor <;> intro x hf <;> simp [customerFormPage, hcid, hne, hf]

/-- C2 witness: a concrete fetch throwing an `Error` is captured and
re-thrown by the page. -/
theorem claim_C2_witness :
    customerFormPage [("customerId", "1")] (fun _ => .error (.errObj "boom"))
      = { result := .threw (.errObj "boom"), captured := [.errObj "boom"] } :=
  (claim_C2 [("customerId", "1")] (fun _ => .error (.errObj "boom")) "1" rfl
    (by decide)).1 "boom" rfl

/-- C2 counterexample: with `customerId=1` and a fetch that throws the
non-`Error` value `"boom"`, the page neither forwards the exception to
the error-reporting collaborator nor re-throws it — it silently returns
`undefined`, refuting the claim that no raised exception is swallowed. -/
theorem claim_C2_counterexample :
    customerFormPage [("customerId", "1")] (fun _ => .error (.other "boom"))
      = { result := .rendered none, captured := [] } ∧
    JsVal.other "boom" ∉
      (customerFormPage [("customerId", "1")] (fun _ => .error (.other "boom"))).captured ∧
    (customerFormPage [("customerId", "1")] (fun _ => .error (.other "boom"))).result ≠
      PageResult.threw (.other "boom") :=
  ⟨rfl, by decide, by decide⟩

/-- C3 (amended): if the customerId parameter is absent or the empty
string the page renders the form with no existing record; if it is present
and nonempty the page parses it with `parseInt` and fetches by that id,
rendering the not-found state with its back affordance when the fetch
returns an absent value, and the pre-populated form when a record is
found. -/
theorem claim_C3 (params : List (String × String))
    (fetch : Option Int → Except JsVal (Option Customer)) :
    ((params.lookup "customerId" = none ∨ params.lookup "customerId" = some "") →
      customerFormPage params fetch
        = { result := .rendered (some .newForm), captured := [] }) ∧
    (∀ cid, params.lookup "customerId" = some cid → cid ≠ "" →
      (fetch (jsParseInt cid) = .ok none →
        customerFormPage params fetch
          = { result := .rendered (some (.notFound cid "Go Back")), captured := [] }) ∧
      (∀ c, fetch (jsParseInt cid) = .ok (some c) →
        customerFormPage params fetch
          = { result := .rendered (some (.editForm c)), captured := [] })) := by
  constructor
  · rintro (h | h) <;> simp [customerFormPage, h]
  · intro cid hcid hne
    constructor
    · intro hf; simp [customerFormPage, hcid, hne, hf]
    · intro c hf; simp [customerFormPage, hcid, hne, hf]

/-- C3 witness: with `customerId=5` and a fetch that finds nothing, the
page renders the not-found state with the back affordance. -/
theorem claim_C3_witness :
    customerFormPage [("customerId", "5")] (fun _ => .ok none)
      = { result := .rendered (some (.notFound "5" "Go Back")), captured := [] } :=
  ((claim_C3 [("customerId", "5")] (fun _ => .ok none)).2 "5" rfl (by decide)).1 rfl

/-- C3 counterexample: the parameter map carrying `customerId=""` has the
parameter present, yet the page renders the new-customer form without
parsing or fetching — even though the fetch would report every id absent —
rather than the not-found state the claim requires for a present
parameter whose fetch returns an absent value. -/
theorem claim_C3_counterexample :
    List.lookup "customerId" [("customerId", "")] = some "" ∧
    customerFormPage [("customerId", "")] (fun _ => .ok none)
      = { result := .rendered (some .newForm), captured := [] } ∧
    PageRender.newForm ≠ PageRender.notFound "" "Go Back" :=
  ⟨rfl, rfl, by decide⟩

/-- Characterization of `matchDigits`: it succeeds with remainder `r`
exactly when the input splits as `n` digits followed by `r`. -/
lemma matchDigits_some_iff (n : Nat) :
    ∀ l r : List Char, matchDigits n l = some r ↔
      ∃ a, l = a ++ r ∧ a.length = n ∧ ∀ c ∈ a, c.isDigit = true := by
  induction n with
  | zero =>
    intro l r
    constructor
    · intro h
      have hl : l = r := by simpa [matchDigits] using h
      exact ⟨[], by simp [hl], rfl, by intro c hc; cases hc⟩
    · rintro ⟨a, hl, ha, -⟩
      have : a = [] := List.length_eq_zero.mp ha
      subst this
      simp [matchDigits, hl]
  | succ n ih =>
    intro l r
    cases l with
    | nil =>
      constructor
      · intro h; simp [matchDigits] at h
      · rintro ⟨a, hl, ha, -⟩
        have h0 := congrArg List.length hl
        simp [ha] at h0
        omega
    | cons c cs =>
      by_cases hc : c.isDigit = true
      · constructor
        · intro h
          simp only [matchDigits, if_pos hc] at h
          rcases (ih cs r).mp h with ⟨a, h1, h2, h3⟩
          refine ⟨c :: a, by simp [h1], by simp [h2], ?_⟩
          intro x hx
          rcases List.mem_cons.mp hx with rfl | hx'
          · exact hc
          · exact h3 x hx'
        · rintro ⟨a, hl, ha, hd⟩
          cases a with
          | nil => simp at ha
          | cons b bs =>
            rw [List.cons_append] at hl
            obtain ⟨rfl, hcs⟩ : c = b ∧ cs = bs ++ r := by
              exact ⟨(List.cons_eq_cons.mp hl).1, (List.cons_eq_cons.mp hl).2⟩
            simp only [matchDigits, if_pos hc]
            refine (ih cs r).mpr ⟨bs, hcs, by simpa using ha, ?_⟩
            intro x hx
            exact hd x (List.mem_cons_of_mem _ hx)
      · constructor
        · intro h; simp only [matchDigits, if_neg hc] at h; cases h
        · rintro ⟨a, hl, ha, hd⟩
          cases a with
          | nil => simp at ha
          | cons b bs =>
            rw [List.cons_append] at hl
            have hb : c = b := (List.cons_eq_cons.mp hl).1
            exact absurd (hb ▸ hd b (List.mem_cons_self b bs)) hc

/-- `matchDigits` consumes a full list of `n` digits. -/
lemma matchDigits_full (n : Nat) (l : List Char) (h1 : l.length = n)
    (h2 : ∀ c ∈ l, c.isDigit = true) : matchDigits n l = some [] :=
  (matchDigits_some_iff n l []).mpr ⟨l, by simp, h1, h2⟩

/-- `matchDigits` consumes a digit prefix of length `n` and returns the
rest. -/
lemma matchDigits_append (n : Nat) (a r : List Char) (h1 : a.length = n)
    (h2 : ∀ c ∈ a, c.isDigit = true) : matchDigits n (a ++ r) = some r :=
  (matchDigits_some_iff n (a ++ r) r).mpr ⟨a, rfl, h1, h2⟩

/-- The zip-code language as the spec reads the regex: five digits, or
five digits, a hyphen and four digits. -/
def ZipSpec (s : String) : Prop :=
  (s.data.length = 5 ∧ ∀ c ∈ s.data, c.isDigit = true) ∨
  (∃ a b : List Char, s.data = a ++ '-' :: b ∧ a.length = 5 ∧ b.length = 4 ∧
    (∀ c ∈ a, c.isDigit = true) ∧ (∀ c ∈ b, c.isDigit = true))

/-- The phone language as the spec reads the regex: three digits, hyphen,
three digits, hyphen, four digits. -/
def PhoneSpec (s : String) : Prop :=
  ∃ a b c : List Char, s.data = a ++ '-' :: (b ++ '-' :: c) ∧
    a.length = 3 ∧ b.length = 3 ∧ c.length = 4 ∧
    (∀ x ∈ a, x.isDigit = true) ∧ (∀ x ∈ b, x.isDigit = true) ∧
    (∀ x ∈ c, x.isDigit = true)

/-- Soundness half: a string in the spec's zip language matches the
regex. -/
lemma zipSpec_implies (s : String) (h : ZipSpec s) : zipRegexMatch s = true := by
  unfold zipRegexMatch
  rcases h with ⟨hlen, hdig⟩ | ⟨a, b, hab, ha, hb, hda, hdb⟩
  · rw [matchDigits_full 5 s.data hlen hdig]
  · rw [hab, matchDigits_append 5 a ('-' :: b) ha hda]
    simp [matchDigits_full 4 b hb hdb]

/-- Completeness half: a string matching the zip regex is in the spec's
zip language. -/
lemma zipMatch_implies (s : String) (h : zipRegexMatch s = true) : ZipSpec s := by
  unfold zipRegexMatch at h
  split at h
  · exact Bool.noConfusion h
  · rename_i h5
    rcases (matchDigits_some_iff 5 s.data []).mp h5 with ⟨a, hl, ha, hd⟩
    have hsa : s.data = a := by simpa using hl
    exact Or.inl ⟨by rw [hsa]; exact ha, by rw [hsa]; exact hd⟩
  · rename_i c rest2 h5
    split at h
    · rename_i hc
      subst hc
      split at h
      · rename_i h4
        rcases (matchDigits_some_iff 5 s.data ('-' :: rest2)).mp h5 with ⟨a, hl, ha, hd⟩
        rcases (matchDigits_some_iff 4 rest2 []).mp h4 with ⟨b, hl2, hb, hdb⟩
        have hrb : rest2 = b := by simpa using hl2
        refine Or.inr ⟨a, b, ?_, ha, hb, hd, hdb⟩
        rw [hl, hrb]
      · exact Bool.noConfusion h
    · exact Bool.noConfusion h

/-- Soundness half: a string in the spec's phone language matches the
regex. -/
lemma phoneSpec_implies (s : String) (h : PhoneSpec s) : phoneRegexMatch s = true := by
  rcases h with ⟨a, b, c, habc, ha, hb, hc, hda, hdb, hdc⟩
  unfold phoneRegexMatch
  rw [habc, matchDigits_append 3 a ('-' :: (b ++ '-' :: c)) ha hda]
  simp only [if_pos rfl]
  rw [matchDigits_append 3 b ('-' :: c) hb hdb]
  simp [matchDigits_full 4 c hc hdc]

/-- Completeness half: a string matching the phone regex is in the spec's
phone language. -/
lemma phoneMatch_implies (s : String) (h : phoneRegexMatch s = true) : PhoneSpec s := by
  unfold phoneRegexMatch at h
  split at h
  · rename_i c1 r1' h3
    split at h
    · rename_i hc1
      subst hc1
      split at h
      · rename_i c2 r2' h3b
        split at h
        · rename_i hc2
          subst hc2
          split at h
          · rename_i h4
            rcases (matchDigits_some_iff 3 s.data ('-' :: r1')).mp h3 with
              ⟨a, hl, ha, hda⟩
            rcases (matchDigits_some_iff 3 r1' ('-' :: r2')).mp h3b with
              ⟨b, hl2, hb, hdb⟩
            rcases (matchDigits_some_iff 4 r2' []).mp h4 with ⟨c, hl3, hc, hdc⟩
            have hr2 : r2' = c := by simpa using hl3
            refine ⟨a, b, c, ?_, ha, hb, hc, hda, hdb, hdc⟩
            rw [hl, hl2, hr2]
          · exact Bool.noConfusion h
        · exact Bool.noConfusion h
      · exact Bool.noConfusion h
    · exact Bool.noConfusion h
  · exact Bool.noConfusion h

/-- A successful split at the first `@` means the list holds an `@`. -/
lemma splitAtFirstAt_mem : ∀ (l : List Char) (p : List Char × List Char),
    splitAtFirstAt l = some p → '@' ∈ l := by
  intro l
  induction l with
  | nil => intro p h; simp [splitAtFirstAt] at h
  | cons c rest ih =>
    intro p h
    by_cases hc : c = '@'
    · simp [hc]
    · rw [splitAtFirstAt, if_neg hc] at h
      rcases Option.map_eq_some'.mp h with ⟨q, hq, -⟩
      exact List.mem_cons_of_mem c (ih q hq)

/-- A string without an `@` never passes zod's email check. -/
lemma zodEmailCheck_eq_false (s : String) (h : '@' ∉ s.data) :
    zodEmailCheck s = false := by
  unfold zodEmailCheck
  cases hs : splitAtFirstAt s.data with
  | none => rfl
  | some p => exact absurd (splitAtFirstAt_mem s.data p hs) h

/-- Filtering a field check by a key keeps the error entry exactly when
the key matches and the check fails. -/
lemma filter_fieldCheck (n k : String) (p : Bool) (m : String) :
    (fieldCheck n p m).filter (fun q => q.1 == k)
      = if (n == k) && !p then [(n, m)] else [] := by
  cases p <;> cases hk : (n == k) <;> simp [fieldCheck, hk]

/-- The state-keyed slice of the customer field errors: empty exactly when
the state has length 2, otherwise the single fixed message. -/
lemma customerFieldErrors_filter_state (i : CustomerInput) :
    (customerFieldErrors i).filter (fun q => q.1 == "state")
      = if i.state.length = 2 then [] else [("state", "State must be 2 characters")] := by
  unfold customerFieldErrors
  simp only [List.filter_append, filter_fieldCheck]
  by_cases h : i.state.length = 2 <;> simp [h]

/-- The email-keyed slice of the customer field errors. -/
lemma customerFieldErrors_filter_email (i : CustomerInput) :
    (customerFieldErrors i).filter (fun q => q.1 == "email")
      = if zodEmailCheck i.email then [] else [("email", "Invalid email address")] := by
  unfold customerFieldErrors
  simp only [List.filter_append, filter_fieldCheck]
  cases h : zodEmailCheck i.email <;> simp [h]

/-- The zipCode-keyed slice of the customer field errors. -/
lemma customerFieldErrors_filter_zip (i : CustomerInput) :
    (customerFieldErrors i).filter (fun q => q.1 == "zipCode")
      = if zipRegexMatch i.zipCode then []
        else [("zipCode",
          "Invalid zip code. Use 5 digits or 5 digits followed by a hyphen and 4 digits")] := by
  unfold customerFieldErrors
  simp only [List.filter_append, filter_fieldCheck]
  cases h : zipRegexMatch i.zipCode <;> simp [h]

/-- The phone-keyed slice of the customer field errors. -/
lemma customerFieldErrors_filter_phone (i : CustomerInput) :
    (customerFieldErrors i).filter (fun q => q.1 == "phone")
      = if phoneRegexMatch i.phone then []
        else [("phone", "Invalid phone number. Use format: 123-456-7890")] := by
  unfold customerFieldErrors
  simp only [List.filter_append, filter_fieldCheck]
  cases h : phoneRegexMatch i.phone <;> simp [h]

/-- When the error list is nonempty the customer validator reports exactly
it. -/
lemma insertCustomerSchema_eq (i : CustomerInput) (h : customerFieldErrors i ≠ []) :
    insertCustomerSchema i = .fieldErrors (customerFieldErrors i) := by
  unfold insertCustomerSchema
  cases hc : customerFieldErrors i with
  | nil => exact absurd hc h
  | cons e rest => rfl

/-- When the error list is nonempty the ticket validator reports exactly
it. -/
lemma insertTicketSchema_eq (i : TicketInput) (h : ticketFieldErrors i ≠ []) :
    insertTicketSchema i = .fieldErrors (ticketFieldErrors i) := by
  unfold insertTicketSchema
  cases hc : ticketFieldErrors i with
  | nil => exact absurd hc h
  | cons e rest => rfl

/-- A failing email check puts the fixed email message into the customer
field errors. -/
lemma email_mem_customerFieldErrors (i : CustomerInput) (h : zodEmailCheck i.email = false) :
    ("email", "Invalid email address") ∈ customerFieldErrors i := by
  have hm : ("email", "Invalid email address")
      ∈ fieldCheck "email" (zodEmailCheck i.email) "Invalid email address" := by
    simp [fieldCheck, h]
  unfold customerFieldErrors
  exact List.mem_append_left _ (List.mem_append_left _ (List.mem_append_right _ hm))

/-- A state of length other than 2 puts the fixed state message into the
customer field errors. -/
lemma state_mem_customerFieldErrors (i : CustomerInput) (h : i.state.length ≠ 2) :
    ("state", "State must be 2 characters") ∈ customerFieldErrors i := by
  have hm : ("state", "State must be 2 characters")
      ∈ fieldCheck "state" (decide (i.state.length = 2)) "State must be 2 characters" := by
    simp [fieldCheck, h]
  unfold customerFieldErrors
  exact List.mem_append_left _ (List.mem_append_left _ (List.mem_append_left _
    (List.mem_append_right _ hm)))

/-- A keyed pair is in a field-error list exactly when it is in the slice
filtered by its key. -/
lemma mem_key_iff (k m : String) (l : List (String × String)) :
    (k, m) ∈ l ↔ (k, m) ∈ l.filter (fun q => q.1 == k) := by
  constructor
  · intro h; exact List.mem_filter.mpr ⟨h, by simp⟩
  · intro h; exact (List.mem_filter.mp h).1

/-- The id-keyed slice of the ticket field errors. -/
lemma ticketFieldErrors_filter_id (i : TicketInput) :
    (ticketFieldErrors i).filter (fun q => q.1 == "id")
      = if ticketIdCheck i.id then [] else [("id", "Invalid input")] := by
  unfold ticketFieldErrors
  simp only [List.filter_append, filter_fieldCheck]
  cases h : ticketIdCheck i.id <;> simp [h]

/-- The title-keyed slice of the ticket field errors. -/
lemma ticketFieldErrors_filter_title (i : TicketInput) :
    (ticketFieldErrors i).filter (fun q => q.1 == "title")
      = if 1 ≤ i.title.length then [] else [("title", "Title is required")] := by
  unfold ticketFieldErrors
  simp only [List.filter_append, filter_fieldCheck]
  by_cases h : 1 ≤ i.title.length <;> simp [h]

/-- The description-keyed slice of the ticket field errors. -/
lemma ticketFieldErrors_filter_description (i : TicketInput) :
    (ticketFieldErrors i).filter (fun q => q.1 == "description")
      = if 1 ≤ i.description.length then []
        else [("description", "Description is required")] := by
  unfold ticketFieldErrors
  simp only [List.filter_append, filter_fieldCheck]
  by_cases h : 1 ≤ i.description.length <;> simp [h]

/-- The tech-keyed slice of the ticket field errors. -/
lemma ticketFieldErrors_filter_tech (i : TicketInput) :
    (ticketFieldErrors i).filter (fun q => q.1 == "tech")
      = if 1 ≤ i.tech.length then [] else [("tech", "Tech is required")] := by
  unfold ticketFieldErrors
  simp only [List.filter_append, filter_fieldCheck]
  by_cases h : 1 ≤ i.tech.length <;> simp [h]

/-- A concrete customer input whose email lacks an `@` and whose state has
three characters, used to instantiate witnesses. -/
def sampleBadCustomer : CustomerInput :=
  { id := none, firstName := "Ann", lastName := "Lee", email := "nodomain"
    phone := "123-456-7890", address1 := "1 Main St", address2 := none
    city := "Town", state := "CAL", zipCode := "12345", notes := none
    active := none, createdAt := none, updatedAt := none }

/-- A concrete ticket input with an invalid string id and an empty title,
used to instantiate witnesses. -/
def sampleBadTicket : TicketInput :=
  { id := .str "oops", customerId := 7, title := "", description := "It broke"
    completed := none, tech := "tech@example.com" }

/-- C4: for every customer input whose email contains no `@`, the insert
validation fails and the email field's failure carries exactly the fixed
message "Invalid email address". -/
theorem claim_C4 (i : CustomerInput) (h : '@' ∉ i.email.data) :
    (∃ errs, insertCustomerSchema i = .fieldErrors errs ∧
      ("email", "Invalid email address") ∈ errs) ∧
    (customerFieldErrors i).filter (fun q => q.1 == "email")
      = [("email", "Invalid email address")] := by
  have hf : zodEmailCheck i.email = false := zodEmailCheck_eq_false _ h
  have hm := email_mem_customerFieldErrors i hf
  refine ⟨⟨customerFieldErrors i, insertCustomerSchema_eq i (List.ne_nil_of_mem hm), hm⟩, ?_⟩
  simp [customerFieldErrors_filter_email, hf]

/-- C4 witness: the concrete at-free email "nodomain" fails validation
with the fixed email message. -/
theorem claim_C4_witness :
    ∃ errs, insertCustomerSchema sampleBadCustomer = .fieldErrors errs ∧
      ("email", "Invalid email address") ∈ errs :=
  (claim_C4 sampleBadCustomer (by decide)).1

/-- C5: the customer validator's zip and phone slices are governed exactly
by the two regex matchers with their fixed error strings; the matchers
agree with the spec's reading of the regexes; and the spec's concrete
examples evaluate as stated. -/
theorem claim_C5 :
    (∀ i : CustomerInput, (customerFieldErrors i).filter (fun q => q.1 == "zipCode")
        = if zipRegexMatch i.zipCode then []
          else [("zipCode",
            "Invalid zip code. Use 5 digits or 5 digits followed by a hyphen and 4 digits")]) ∧
    (∀ i : CustomerInput, (customerFieldErrors i).filter (fun q => q.1 == "phone")
        = if phoneRegexMatch i.phone then []
          else [("phone", "Invalid phone number. Use format: 123-456-7890")]) ∧
    (∀ s, zipRegexMatch s = true ↔ ZipSpec s) ∧
    (∀ s, phoneRegexMatch s = true ↔ PhoneSpec s) ∧
    zipRegexMatch "12345" = true ∧ zipRegexMatch "12345-6789" = true ∧
    zipRegexMatch "1234" = false ∧ zipRegexMatch "12345-678" = false ∧
    phoneRegexMatch "123-456-7890" = true ∧ phoneRegexMatch "1234567890" = false ∧
    phoneRegexMatch "(123) 456-7890" = false :=
  ⟨customerFieldErrors_filter_zip, customerFieldErrors_filter_phone,
    fun s => ⟨zipMatch_implies s, zipSpec_implies s⟩,
    fun s => ⟨phoneMatch_implies s, phoneSpec_implies s⟩,
    by decide, by decide, by decide, by decide, by decide, by decide, by decide⟩

/-- C5 witness: the zip slice equation instantiated at the concrete
customer input. -/
theorem claim_C5_witness :
    (customerFieldErrors sampleBadCustomer).filter (fun q => q.1 == "zipCode")
      = if zipRegexMatch sampleBadCustomer.zipCode then []
        else [("zipCode",
          "Invalid zip code. Use 5 digits or 5 digits followed by a hyphen and 4 digits")] :=
  claim_C5.1 sampleBadCustomer

/-- C6: validation of the state field fails exactly when the state's
length differs from 2, always with the fixed message "State must be 2
characters"; a 2-character state contributes no state error. -/
theorem claim_C6 (i : CustomerInput) :
    ((customerFieldErrors i).filter (fun q => q.1 == "state")
      = if i.state.length = 2 then [] else [("state", "State must be 2 characters")]) ∧
    (i.state.length ≠ 2 →
      ∃ errs, insertCustomerSchema i = .fieldErrors errs ∧
        ("state", "State must be 2 characters") ∈ errs) ∧
    (i.state.length = 2 →
      ("state", "State must be 2 characters") ∉ customerFieldErrors i) := by
  refine ⟨customerFieldErrors_filter_state i, ?_, ?_⟩
  · intro h
    have hm := state_mem_customerFieldErrors i h
    exact ⟨customerFieldErrors i, insertCustomerSchema_eq i (List.ne_nil_of_mem hm), hm⟩
  · intro h2 hmem
    have hf : ("state", "State must be 2 characters")
        ∈ (customerFieldErrors i).filter (fun q => q.1 == "state") :=
      List.mem_filter.mpr ⟨hmem, by simp⟩
    rw [customerFieldErrors_filter_state i, if_pos h2] at hf
    cases hf

/-- C6 witness: the concrete 3-character state "CAL" fails validation with
the fixed state message. -/
theorem claim_C6_witness :
    ∃ errs, insertCustomerSchema sampleBadCustomer = .fieldErrors errs ∧
      ("state", "State must be 2 characters") ∈ errs :=
  (claim_C6 sampleBadCustomer).2.1 (by decide)

/-- C7: the derived ticket insert validator always returns a structured
success-or-failure result; on failure the reported list is exactly the
field-keyed error list, nonempty, with pairwise-distinct field keys and
one entry per failing field. -/
theorem claim_C7 (i : TicketInput) :
    (insertTicketSchema i = .ok i ∨
      insertTicketSchema i = .fieldErrors (ticketFieldErrors i)) ∧
    (∀ errs, insertTicketSchema i = .fieldErrors errs →
      errs ≠ [] ∧ (errs.map Prod.fst).Nodup ∧
      (("id", "Invalid input") ∈ errs ↔ ticketIdCheck i.id = false) ∧
      (("title", "Title is required") ∈ errs ↔ ¬ 1 ≤ i.title.length) ∧
      (("description", "Description is required") ∈ errs ↔ ¬ 1 ≤ i.description.length) ∧
      (("tech", "Tech is required") ∈ errs ↔ ¬ 1 ≤ i.tech.length)) := by
  have hkey : ∀ errs, insertTicketSchema i = .fieldErrors errs →
      errs = ticketFieldErrors i ∧ errs ≠ [] := by
    intro errs h
    have hne : ticketFieldErrors i ≠ [] := by
      intro hnil
      unfold insertTicketSchema at h
      rw [hnil] at h
      exact absurd h (by simp)
    rw [insertTicketSchema_eq i hne] at h
    injection h with h'
    exact ⟨h'.symm, h' ▸ hne⟩
  constructor
  · cases hc : ticketFieldErrors i with
    | nil =>
      left
      unfold insertTicketSchema
      rw [hc]
    | cons e rest =>
      right
      unfold insertTicketSchema
      rw [hc]
  · intro errs h
    obtain ⟨heq, hne⟩ := hkey errs h
    subst heq
    refine ⟨hne, ?_, ?_, ?_, ?_, ?_⟩
    · unfold ticketFieldErrors fieldCheck
      cases h1 : ticketIdCheck i.id <;>
        cases h2 : decide (1 ≤ i.title.length) <;>
          cases h3 : decide (1 ≤ i.description.length) <;>
            cases h4 : decide (1 ≤ i.tech.length) <;> simp
    · rw [mem_key_iff "id" "Invalid input", ticketFieldErrors_filter_id]
      cases hb : ticketIdCheck i.id <;> simp [hb]
    · rw [mem_key_iff "title" "Title is required", ticketFieldErrors_filter_title]
      by_cases hb : 1 ≤ i.title.length <;> simp [hb]
    · rw [mem_key_iff "description" "Description is required",
        ticketFieldErrors_filter_description]
      by_cases hb : 1 ≤ i.description.length <;> simp [hb]
    · rw [mem_key_iff "tech" "Tech is required", ticketFieldErrors_filter_tech]
      by_cases hb : 1 ≤ i.tech.length <;> simp [hb]

/-- C7 witness: the failure structure instantiated at the concrete ticket
input with a bad id and an empty title. -/
theorem claim_C7_witness :
    ticketFieldErrors sampleBadTicket ≠ [] ∧
    ((ticketFieldErrors sampleBadTicket).map Prod.fst).Nodup ∧
    (("id", "Invalid input") ∈ ticketFieldErrors sampleBadTicket ↔
      ticketIdCheck sampleBadTicket.id = false) ∧
    (("title", "Title is required") ∈ ticketFieldErrors sampleBadTicket ↔
      ¬ 1 ≤ sampleBadTicket.title.length) ∧
    (("description", "Description is required") ∈ ticketFieldErrors sampleBadTicket ↔
      ¬ 1 ≤ sampleBadTicket.description.length) ∧
    (("tech", "Tech is required") ∈ ticketFieldErrors sampleBadTicket ↔
      ¬ 1 ≤ sampleBadTicket.tech.length) :=
  (claim_C7 sampleBadTicket).2 (ticketFieldErrors sampleBadTicket) (by decide)

/-- C8: the ticket id check accepts exactly numbers and the exact string
literal "(New)"; every other string id is rejected, and a rejected id
makes the ticket validator fail with the id-keyed entry. -/
theorem claim_C8 :
    (∀ v : TicketId, ticketIdCheck v = true ↔ ((∃ n, v = .num n) ∨ v = .str "(New)")) ∧
    (∀ s, s ≠ "(New)" → ticketIdCheck (.str s) = false) ∧
    (∀ i : TicketInput, ticketIdCheck i.id = false →
      ∃ errs, insertTicketSchema i = .fieldErrors errs ∧ ("id", "Invalid input") ∈ errs) := by
  refine ⟨?_, ?_, ?_⟩
  · intro v
    cases v with
    | num n => simp [ticketIdCheck]
    | str s => simp [ticketIdCheck]
  · intro s h; simp [ticketIdCheck, h]
  · intro i h
    have hm : ("id", "Invalid input") ∈ ticketFieldErrors i := by
      have hx : ("id", "Invalid input")
          ∈ fieldCheck "id" (ticketIdCheck i.id) "Invalid input" := by
        simp [fieldCheck, h]
      unfold ticketFieldErrors
      exact List.mem_append_left _ (List.mem_append_left _ (List.mem_append_left _ hx))
    exact ⟨ticketFieldErrors i, insertTicketSchema_eq i (List.ne_nil_of_mem hm), hm⟩

/-- C8 witness: the concrete string id "7" is rejected. -/
theorem claim_C8_witness : ticketIdCheck (.str "7") = false :=
  claim_C8.2.1 "7" (by decide)
